import Mathlib

/-!
# Verification of the MiniWoB action-space module (`miniwob/action.py`)

A shallow embedding of the data model and operations of `miniwob/action.py`:
the `ActionTypes` registry and its capability groups, `ActionSpaceConfig`
(presets, schema construction, coordinate computation) and the dispatcher
`execute_action`, together with theorems settling the specification claims.

Python numbers are modelled as `ℚ` (all quantities involved are exactly
representable), Python exceptions as an explicit `PyError` sum carried in
`Except` / an error slot, and the Selenium driver as an external collaborator:
a dispatch produces a trace of `DriverCall`s instead of real browser effects.
-/

namespace Miniwob

/-- The `ActionTypes` string enum of `miniwob/action.py`. -/
inductive ActionTypes where
  | NONE
  | MOVE_COORDS
  | CLICK_COORDS
  | DBLCLICK_COORDS
  | MOUSEDOWN_COORDS
  | MOUSEUP_COORDS
  | CLICK_ELEMENT
  | SCROLL_UP
  | SCROLL_DOWN
  | PRESS_KEY
  | TYPE_TEXT
  | TYPE_FIELD
  | FOCUS_ELEMENT_AND_TYPE_TEXT
  | FOCUS_ELEMENT_AND_TYPE_FIELD
  deriving DecidableEq, Repr

/-- `COORDS_ACTIONS`: mouse actions taking raw or binned coordinates. -/
def COORDS_ACTIONS : List ActionTypes :=
  [.MOVE_COORDS, .CLICK_COORDS, .DBLCLICK_COORDS, .MOUSEDOWN_COORDS, .MOUSEUP_COORDS]

/-- `ELEMENT_ACTIONS`: actions taking an element reference. -/
def ELEMENT_ACTIONS : List ActionTypes :=
  [.CLICK_ELEMENT, .FOCUS_ELEMENT_AND_TYPE_TEXT, .FOCUS_ELEMENT_AND_TYPE_FIELD]

/-- `TEXT_ACTIONS`: actions taking a free-text payload. -/
def TEXT_ACTIONS : List ActionTypes :=
  [.TYPE_TEXT, .FOCUS_ELEMENT_AND_TYPE_TEXT]

/-- `FIELD_ACTIONS`: actions taking a field index. -/
def FIELD_ACTIONS : List ActionTypes :=
  [.TYPE_FIELD, .FOCUS_ELEMENT_AND_TYPE_FIELD]

/-- Truthiness of `S.intersection(seq)` for a capability-group set `S`:
nonempty iff some configured action type belongs to the group. -/
def intersects (group : List ActionTypes) (action_types : List ActionTypes) : Bool :=
  action_types.any (fun t => group.contains t)

/-- Modelled from the spec: `miniwob.constants` is not under `src/`.
`MAX_REF` is "a fixed maximum reference count"; its concrete value never
enters any claim, only the fact that `ref` is a discrete selector bounded
by it. -/
def MAX_REF : Nat := 1000000

/-- Modelled from the spec: `miniwob.constants` is not under `src/`.
`MAX_FIELDS` is "a fixed maximum field count". -/
def MAX_FIELDS : Nat := 20

/-- Modelled from the spec: `miniwob.constants` is not under `src/`.
`TYPING_MAX_LENGTH` is the default positive bound on free-text length. -/
def TYPING_MAX_LENGTH : Nat := 32

/-- Modelled from the spec: `miniwob.constants` is not under `src/`.
`ASCII_CHARSET` is the default character set for typed text; its contents
never enter any claim. -/
def ASCII_CHARSET : String :=
  "abcdefghijklmnopqrstuvwxyzABCDEFGHIJKLMNOPQRSTUVWXYZ0123456789 "

/-- Modelled from the spec: `miniwob.constants` is not under `src/`.
`DEFAULT_ALLOWED_KEYS` is "an ordered sequence of allowed keys and key
combinations"; only its length enters the schema, never its contents. -/
def DEFAULT_ALLOWED_KEYS : List String :=
  ["<Enter>", "<Tab>", "<Backspace>", "<Left>", "<Right>", "<Up>", "<Down>"]

/-- Python exceptions that the module can raise, one constructor per
distinct raise site / built-in failure mode. -/
inductive PyError where
  /-- Sequence index out of range (`config.action_types[i]`). -/
  | indexError
  /-- Dict lookup miss on `_ACTION_TYPE_TO_SELENIUM_ACTION_FN[action_type]`;
  the `KeyError` carries the missing key. -/
  | keyError (k : ActionTypes)
  /-- Dict lookup miss on an action-instance field such as `action["coords"]`. -/
  | keyErrorStr (field : String)
  /-- `ValueError("screen_width and screen_height must be specified.")`. -/
  | valueErrorScreen
  /-- `ValueError(f"Unsupported action type: \x7baction_type\x7d")`. -/
  | valueErrorUnsupported (k : ActionTypes)
  /-- `ValueError(f"Unknown preset name \x7bname\x7d")`. -/
  | valueErrorPreset (name : String)
  /-- Calling a non-callable or with a wrong signature. -/
  | typeError
  /-- Division by a zero bin count. -/
  | zeroDivisionError
  deriving DecidableEq, Repr

/-- The shape of one `gymnasium.spaces` value appearing in the schema dict. -/
inductive SpaceDesc where
  /-- `spaces.Discrete(n)`. -/
  | discrete (n : Nat)
  /-- `spaces.MultiDiscrete(np.array(coord_bins))`. -/
  | multiDiscrete (binsX binsY : Int)
  /-- `spaces.Box([0,0], [screen_width, screen_height])`. -/
  | box (screen_width screen_height : ℚ)
  /-- `spaces.Text(max_len, charset)`. -/
  | textSpace (max_len : Nat) (charset : String)
  deriving DecidableEq, Repr

/-- `ActionSpaceConfig` dataclass, fields in source order. Screen dimensions
are `Optional[float]`, coordinate bins an `Optional[Tuple[int, int]]`. -/
structure ActionSpaceConfig where
  action_types : List ActionTypes
  screen_width : Option ℚ := none
  screen_height : Option ℚ := none
  coord_bins : Option (Int × Int) := none
  allowed_keys : List String := DEFAULT_ALLOWED_KEYS
  text_max_len : Nat := TYPING_MAX_LENGTH
  text_charset : String := ASCII_CHARSET
  deriving DecidableEq, Repr

/-- An action instance: the dict produced by a policy. `action_type` is
always present per the schema; the other fields are present only when the
instance carries them (`none` models an absent key). Numeric fields are
`ℚ`; `int(...)` conversions are applied where the source applies them. -/
structure ActionInst where
  action_type : Int
  coords : Option (ℚ × ℚ) := none
  ref : Option ℚ := none
  text : Option String := none
  deriving DecidableEq, Repr

instance {ε α : Type} [DecidableEq ε] [DecidableEq α] : DecidableEq (Except ε α) :=
  fun x y =>
    match x, y with
    | .ok a, .ok b =>
      if h : a = b then isTrue (by rw [h]) else isFalse (fun hc => by cases hc; exact h rfl)
    | .error a, .error b =>
      if h : a = b then isTrue (by rw [h]) else isFalse (fun hc => by cases hc; exact h rfl)
    | .ok _, .error _ => isFalse (fun hc => by cases hc)
    | .error _, .ok _ => isFalse (fun hc => by cases hc)

/-- Python `int(q)` on a real number: truncation toward zero. -/
def pyTrunc (q : ℚ) : Int :=
  if 0 ≤ q then ⌊q⌋ else ⌈q⌉

/-- Python truthiness of an `Optional[float]`: `not x` is true exactly when
`x` is `None` or equals zero. -/
def pyFalsy (x : Option ℚ) : Bool :=
  match x with
  | none => true
  | some v => v = 0

/-- Python sequence indexing `xs[t]` with an `int` index: negative indices
count from the end; out-of-range raises `IndexError`. -/
def pyIndex {α : Type} (xs : List α) (t : Int) : Except PyError α :=
  let i : Int := if t < 0 then t + xs.length else t
  if i < 0 then .error .indexError
  else
    match xs.get? i.toNat with
    | some x => .ok x
    | none => .error .indexError

/-- `ActionSpaceConfig.get_preset`: the `"all_supported"` preset, or
`ValueError` for an unknown name. The remaining dataclass fields take
their declared defaults. -/
def get_preset (name : String) : Except PyError ActionSpaceConfig :=
  if name = "all_supported" then
    .ok { action_types :=
            [.NONE, .CLICK_COORDS, .CLICK_ELEMENT, .TYPE_TEXT,
             .FOCUS_ELEMENT_AND_TYPE_TEXT] }
  else
    .error (.valueErrorPreset name)

/-- `ActionSpaceConfig.get_action_space`: builds the schema dict in source
order (`action_type`, then conditionally `coords`, `ref`, `key`, `text`,
`field`). The coordinate branch first requires truthy screen dimensions
(`not self.screen_width or not self.screen_height` raises `ValueError`). -/
def get_action_space (cfg : ActionSpaceConfig) :
    Except PyError (List (String × SpaceDesc)) :=
  let space0 := [("action_type", SpaceDesc.discrete cfg.action_types.length)]
  let step1 : Except PyError (List (String × SpaceDesc)) :=
    if intersects COORDS_ACTIONS cfg.action_types then
      match cfg.screen_width, cfg.screen_height with
      | some w, some h =>
        if w = 0 ∨ h = 0 then
          Except.error PyError.valueErrorScreen
        else
          match cfg.coord_bins with
          | some (binsX, binsY) =>
            Except.ok (space0 ++ [("coords", SpaceDesc.multiDiscrete binsX binsY)])
          | none =>
            Except.ok (space0 ++ [("coords", SpaceDesc.box w h)])
      | _, _ => Except.error PyError.valueErrorScreen
    else Except.ok space0
  match step1 with
  | .error e => .error e
  | .ok space1 =>
    let space2 :=
      if intersects ELEMENT_ACTIONS cfg.action_types then
        space1 ++ [("ref", SpaceDesc.discrete MAX_REF)]
      else space1
    let space3 :=
      if ActionTypes.PRESS_KEY ∈ cfg.action_types then
        space2 ++ [("key", SpaceDesc.discrete cfg.allowed_keys.length)]
      else space2
    let space4 :=
      if intersects TEXT_ACTIONS cfg.action_types then
        space3 ++ [("text", SpaceDesc.textSpace cfg.text_max_len cfg.text_charset)]
      else space3
    let space5 :=
      if intersects FIELD_ACTIONS cfg.action_types then
        space4 ++ [("field", SpaceDesc.discrete MAX_FIELDS)]
      else space4
    .ok space5

/-- `ActionSpaceConfig.compute_raw_coords`. With `coord_bins` set it first
requires truthy screen dimensions, then maps bin index `i` to
`(0.5 + int(i)) * (extent / bins)`; without bins it returns
`(float(coords[0]), float(coords[1]))`, the identity on `ℚ`. Failure
points in evaluation order: `ValueError` on falsy screen geometry,
`KeyError` on a missing `coords` field, `ZeroDivisionError` on a zero bin
count. -/
def compute_raw_coords (cfg : ActionSpaceConfig) (action : ActionInst) :
    Except PyError (ℚ × ℚ) :=
  match cfg.coord_bins with
  | some (binsX, binsY) =>
    match cfg.screen_width, cfg.screen_height with
    | some w, some h =>
      if w = 0 ∨ h = 0 then .error .valueErrorScreen
      else
        match action.coords with
        | none => .error (.keyErrorStr "coords")
        | some (c0, c1) =>
          if binsX = 0 then .error .zeroDivisionError
          else if binsY = 0 then .error .zeroDivisionError
          else
            .ok ((1/2 + (pyTrunc c0 : ℚ)) * (w / (binsX : ℚ)),
                 (1/2 + (pyTrunc c1 : ℚ)) * (h / (binsY : ℚ)))
    | _, _ => .error .valueErrorScreen
  | none =>
    match action.coords with
    | none => .error (.keyErrorStr "coords")
    | some (c0, c1) => .ok (c0, c1)

/-- One function of `miniwob.selenium_actions`, as stored in the dispatch
table. The driver itself is external; these are opaque handles. -/
inductive SelFn where
  | execute_move_coords
  | execute_click_coords
  | execute_dblclick_coords
  | execute_mousedown_coords
  | execute_mouseup_coords
  | execute_click_element
  | execute_type_text
  | execute_focus_element_and_type_text
  deriving DecidableEq, Repr

/-- One invocation of a driver primitive, with its arguments: the
observable effect of a dispatch. -/
inductive DriverCall where
  | moveCoords (left top : ℚ)
  | clickCoords (left top : ℚ)
  | dblclickCoords (left top : ℚ)
  | mousedownCoords (left top : ℚ)
  | mouseupCoords (left top : ℚ)
  | clickElement (ref : Int)
  | typeText (text : String)
  | focusElementAndTypeText (ref : Int) (text : String)
  deriving DecidableEq, Repr

/-- `_ACTION_TYPE_TO_SELENIUM_ACTION_FN`: a dict whose keys are exactly the
nine listed action types; `NONE` maps to Python `None` (inner `none`), the
five unlisted kinds are absent (outer `none`, a `KeyError` on lookup). -/
def ACTION_TYPE_TO_SELENIUM_ACTION_FN : ActionTypes → Option (Option SelFn)
  | .NONE => some none
  | .MOVE_COORDS => some (some .execute_move_coords)
  | .CLICK_COORDS => some (some .execute_click_coords)
  | .DBLCLICK_COORDS => some (some .execute_dblclick_coords)
  | .MOUSEDOWN_COORDS => some (some .execute_mousedown_coords)
  | .MOUSEUP_COORDS => some (some .execute_mouseup_coords)
  | .CLICK_ELEMENT => some (some .execute_click_element)
  | .TYPE_TEXT => some (some .execute_type_text)
  | .FOCUS_ELEMENT_AND_TYPE_TEXT => some (some .execute_focus_element_and_type_text)
  | _ => none

/-- The outcome of `execute_action`: the trace of driver calls actually
performed, and the exception raised, if any. In the source every raise site
precedes the (single, final) driver invocation of its branch, so an error
always comes with an empty trace. -/
abbrev ExecResult := List DriverCall × Option PyError

/-- `selenium_action_fn(left, top, driver)` in the coordinate branch:
the five coordinate functions each perform their one driver call; applying
`None` or a non-coordinate function with this signature would be a
`TypeError` (unreachable: the table pairs every coordinate kind with its
own coordinate function). -/
def applyCoordsFn (fn : Option SelFn) (left top : ℚ) : ExecResult :=
  match fn with
  | some .execute_move_coords => ([.moveCoords left top], none)
  | some .execute_click_coords => ([.clickCoords left top], none)
  | some .execute_dblclick_coords => ([.dblclickCoords left top], none)
  | some .execute_mousedown_coords => ([.mousedownCoords left top], none)
  | some .execute_mouseup_coords => ([.mouseupCoords left top], none)
  | _ => ([], some .typeError)

/-- `execute_action(action, config, driver)`: resolve the kind by indexing
`config.action_types`, look it up in the dispatch table (a `KeyError` for
the five unlisted kinds), then branch: no-op, coordinate actions through
`compute_raw_coords`, element click, type text, focus-and-type; the final
`else` raises `ValueError` naming the kind. -/
def execute_action (action : ActionInst) (cfg : ActionSpaceConfig) : ExecResult :=
  match pyIndex cfg.action_types action.action_type with
  | .error e => ([], some e)
  | .ok action_type =>
    match ACTION_TYPE_TO_SELENIUM_ACTION_FN action_type with
    | none => ([], some (.keyError action_type))
    | some selenium_action_fn =>
      if action_type = .NONE then ([], none)
      else if action_type ∈ COORDS_ACTIONS then
        match compute_raw_coords cfg action with
        | .error e => ([], some e)
        | .ok (left, top) => applyCoordsFn selenium_action_fn left top
      else if action_type = .CLICK_ELEMENT then
        match action.ref with
        | none => ([], some (.keyErrorStr "ref"))
        | some r => ([.clickElement (pyTrunc r)], none)
      else if action_type = .TYPE_TEXT then
        match action.text with
        | none => ([], some (.keyErrorStr "text"))
        | some t => ([.typeText t], none)
      else if action_type = .FOCUS_ELEMENT_AND_TYPE_TEXT then
        match action.ref with
        | none => ([], some (.keyErrorStr "ref"))
        | some r =>
          match action.text with
          | none => ([], some (.keyErrorStr "text"))
          | some t => ([.focusElementAndTypeText (pyTrunc r) t], none)
      else ([], some (.valueErrorUnsupported action_type))

end Miniwob

namespace Miniwob

/-! ## Helper lemmas -/

/-- `int()` is the identity on integers. -/
lemma pyTrunc_intCast (i : Int) : pyTrunc (i : ℚ) = i := by
  unfold pyTrunc
  split
  · exact Int.floor_intCast i
  · exact Int.ceil_intCast i

/-- Membership test for a key in the schema dict. -/
def hasKey (sch : List (String × SpaceDesc)) (k : String) : Bool :=
  sch.any (fun p => p.1 == k)

lemma hasKey_append (s t : List (String × SpaceDesc)) (k : String) :
    hasKey (s ++ t) k = (hasKey s k || hasKey t k) := by
  simp [hasKey]

end Miniwob

namespace Miniwob

/-! ## Claim theorems -/

/-- **C1.** `compute_raw_coords` is functionally correct on both branches:
with `coord_bins` and positive screen dimensions set, integer bin indices
`(i, j)` map to `((0.5 + i) * (screen_width / coord_bins.1),
(0.5 + j) * (screen_height / coord_bins.2))`; without `coord_bins` it
returns the coords unchanged; in particular, with bins `(4, 2)` on an
`800 × 600` screen, bin `(0, 0)` yields `(100, 150)` and bin `(3, 1)`
yields `(700, 450)`. -/
theorem claim1_compute_raw_coords_correct :
    (∀ (cfg : ActionSpaceConfig) (a : ActionInst) (binsX binsY : Int) (w h : ℚ) (i j : Int),
      cfg.coord_bins = some (binsX, binsY) → 0 < binsX → 0 < binsY →
      cfg.screen_width = some w → 0 < w →
      cfg.screen_height = some h → 0 < h →
      a.coords = some ((i : ℚ), (j : ℚ)) →
      compute_raw_coords cfg a =
        .ok ((1/2 + (i : ℚ)) * (w / (binsX : ℚ)), (1/2 + (j : ℚ)) * (h / (binsY : ℚ)))) ∧
    (∀ (cfg : ActionSpaceConfig) (a : ActionInst) (x y : ℚ),
      cfg.coord_bins = none → a.coords = some (x, y) →
      compute_raw_coords cfg a = .ok (x, y)) ∧
    compute_raw_coords
      { action_types := [.CLICK_COORDS], screen_width := some 800,
        screen_height := some 600, coord_bins := some (4, 2) }
      { action_type := 0, coords := some (0, 0) } = .ok (100, 150) ∧
    compute_raw_coords
      { action_types := [.CLICK_COORDS], screen_width := some 800,
        screen_height := some 600, coord_bins := some (4, 2) }
      { action_type := 0, coords := some (3, 1) } = .ok (700, 450) := by
  refine ⟨?_, ?_, ?_, ?_⟩
  · intro cfg a binsX binsY w h i j hbins hbx hby hw hwpos hh hhpos hc
    have hwh : ¬(w = 0 ∨ h = 0) := by
      rintro (rfl | rfl)
      · exact lt_irrefl 0 hwpos
      · exact lt_irrefl 0 hhpos
    unfold compute_raw_coords
    rw [hbins, hw, hh, hc]
    simp [hwh, (ne_of_gt hbx), (ne_of_gt hby), pyTrunc_intCast]
  · intro cfg a x y hbins hc
    unfold compute_raw_coords
    rw [hbins, hc]
  · simp [compute_raw_coords, pyTrunc]
    norm_num
  · simp [compute_raw_coords, pyTrunc]
    norm_num

/-- **C1 witness.** The general binned law applied at bins `(4, 2)`,
screen `800 × 600`, bin `(3, 1)`. -/
theorem claim1_witness :
    compute_raw_coords
      { action_types := [.CLICK_COORDS], screen_width := some 800,
        screen_height := some 600, coord_bins := some (4, 2) }
      { action_type := 0, coords := some (((3 : Int) : ℚ), ((1 : Int) : ℚ)) } =
      .ok ((1/2 + ((3 : Int) : ℚ)) * (800 / ((4 : Int) : ℚ)),
           (1/2 + ((1 : Int) : ℚ)) * (600 / ((2 : Int) : ℚ))) :=
  claim1_compute_raw_coords_correct.1
    { action_types := [.CLICK_COORDS], screen_width := some 800,
      screen_height := some 600, coord_bins := some (4, 2) }
    { action_type := 0, coords := some (((3 : Int) : ℚ), ((1 : Int) : ℚ)) }
    4 2 800 600 3 1 rfl (by norm_num) (by norm_num) rfl (by norm_num) rfl (by norm_num) rfl

/-- **C2 counterexample.** Dispatching the configured-but-unwired kind
`SCROLL_UP` does not raise the `Unsupported action type` `ValueError`:
the handler-table lookup raises a `KeyError` first. -/
theorem claim2_counterexample :
    execute_action { action_type := 0 } { action_types := [.SCROLL_UP] } =
      ([], some (PyError.keyError ActionTypes.SCROLL_UP)) ∧
    (([], some (PyError.keyError ActionTypes.SCROLL_UP)) : ExecResult) ≠
      (([], some (PyError.valueErrorUnsupported ActionTypes.SCROLL_UP)) : ExecResult) := by
  constructor
  · rfl
  · decide

/-- **C2 (amended).** For every configuration and action instance whose
`action_type` index resolves to one of the five configured-but-unwired
kinds, `execute_action` raises a `KeyError` naming that kind at the
handler-table lookup (the explicit `Unsupported action type` branch being
unreachable for them), and performs no driver call. -/
theorem claim2_unwired_kind_raises_keyerror
    (cfg : ActionSpaceConfig) (a : ActionInst) (k : ActionTypes)
    (hres : pyIndex cfg.action_types a.action_type = .ok k)
    (hk : k = .SCROLL_UP ∨ k = .SCROLL_DOWN ∨ k = .PRESS_KEY ∨
          k = .TYPE_FIELD ∨ k = .FOCUS_ELEMENT_AND_TYPE_FIELD) :
    execute_action a cfg = ([], some (.keyError k)) := by
  unfold execute_action
  rw [hres]
  rcases hk with rfl | rfl | rfl | rfl | rfl <;> rfl

/-- **C2 witness.** The amended claim at `action_types = [SCROLL_UP]`,
instance `action_type = 0`. -/
theorem claim2_witness :
    execute_action { action_type := 0 } { action_types := [.SCROLL_UP] } =
      ([], some (.keyError .SCROLL_UP)) :=
  claim2_unwired_kind_raises_keyerror { action_types := [.SCROLL_UP] }
    { action_type := 0 } .SCROLL_UP rfl (Or.inl rfl)

/-- **C5.** End-to-end dispatch: with `action_types = [NONE, CLICK_COORDS]`,
screen `300 × 200`, no binning, the instance `(action_type 1, coords
(10, 20))` performs exactly one driver call, `clickCoords 10 20`, and the
instance `action_type 0` performs none. -/
theorem claim5_end_to_end_dispatch :
    execute_action { action_type := 1, coords := some (10, 20) }
      { action_types := [.NONE, .CLICK_COORDS], screen_width := some 300,
        screen_height := some 200 } = ([DriverCall.clickCoords 10 20], none) ∧
    execute_action { action_type := 0 }
      { action_types := [.NONE, .CLICK_COORDS], screen_width := some 300,
        screen_height := some 200 } = ([], none) := by
  constructor <;> rfl

/-- **C6.** `get_preset "all_supported"` returns exactly the documented
configuration, and every other name raises the unknown-preset
`ValueError`. -/
theorem claim6_get_preset :
    get_preset "all_supported" =
      .ok { action_types := [.NONE, .CLICK_COORDS, .CLICK_ELEMENT, .TYPE_TEXT,
                             .FOCUS_ELEMENT_AND_TYPE_TEXT] } ∧
    (∀ name : String, name ≠ "all_supported" →
      get_preset name = .error (.valueErrorPreset name)) := by
  constructor
  · rfl
  · intro name hname
    unfold get_preset
    rw [if_neg hname]

/-- **C6 witness.** The unknown-preset branch at the name `"nonexistent"`. -/
theorem claim6_witness :
    get_preset "nonexistent" = .error (.valueErrorPreset "nonexistent") :=
  claim6_get_preset.2 "nonexistent" (by decide)

/-- **C8.** An `action_type` index that is out of bounds for
`action_types` (in Python's sense: at least the length, or below its
negation) makes `execute_action` fail with `IndexError` during kind
resolution, with no driver call performed. -/
theorem claim8_index_out_of_bounds
    (a : ActionInst) (cfg : ActionSpaceConfig)
    (hoob : (cfg.action_types.length : Int) ≤ a.action_type ∨
            a.action_type < -(cfg.action_types.length : Int)) :
    execute_action a cfg = ([], some PyError.indexError) := by
  have hidx : pyIndex cfg.action_types a.action_type = .error .indexError := by
    rcases hoob with hge | hlt
    · have hneg : ¬ a.action_type < 0 := by omega
      have hnone : cfg.action_types.get? a.action_type.toNat = none := by
        rw [List.get?_eq_none]
        omega
      unfold pyIndex
      simp only [if_neg hneg, hnone]
    · have hpos : a.action_type < 0 := by omega
      have h2 : a.action_type + (cfg.action_types.length : Int) < 0 := by omega
      unfold pyIndex
      simp only [if_pos hpos, if_pos h2]
  unfold execute_action
  rw [hidx]

/-- **C8 witness.** Index `2` into the singleton `action_types = [NONE]`. -/
theorem claim8_witness :
    execute_action { action_type := 2 } { action_types := [.NONE] } =
      ([], some PyError.indexError) :=
  claim8_index_out_of_bounds { action_type := 2 } { action_types := [.NONE] }
    (Or.inl (by norm_num))

end Miniwob

namespace Miniwob

/-- **C4 counterexample.** A configuration whose `action_types` contains a
Coordinate kind but with both screen dimensions unset: without
`coord_bins`, `compute_raw_coords` succeeds instead of raising the
missing-geometry `ValueError`. -/
theorem claim4_counterexample :
    compute_raw_coords { action_types := [.CLICK_COORDS] }
      { action_type := 0, coords := some (1, 2) } = .ok (1, 2) ∧
    intersects COORDS_ACTIONS [ActionTypes.CLICK_COORDS] = true ∧
    ({ action_types := [.CLICK_COORDS] } : ActionSpaceConfig).screen_width = none := by
  exact ⟨rfl, rfl, rfl⟩

/-- **C4 (amended).** With a screen dimension unset, `get_action_space`
raises the missing-geometry `ValueError` whenever a Coordinate kind is
configured; `compute_raw_coords` raises it whenever `coord_bins` is set,
but without binning it returns the coords without checking geometry. -/
theorem claim4_missing_geometry :
    (∀ cfg : ActionSpaceConfig,
      intersects COORDS_ACTIONS cfg.action_types = true →
      (cfg.screen_width = none ∨ cfg.screen_height = none) →
      get_action_space cfg = .error .valueErrorScreen) ∧
    (∀ (cfg : ActionSpaceConfig) (a : ActionInst) (binsX binsY : Int),
      cfg.coord_bins = some (binsX, binsY) →
      (cfg.screen_width = none ∨ cfg.screen_height = none) →
      compute_raw_coords cfg a = .error .valueErrorScreen) ∧
    (∀ (cfg : ActionSpaceConfig) (a : ActionInst) (x y : ℚ),
      cfg.coord_bins = none → a.coords = some (x, y) →
      compute_raw_coords cfg a = .ok (x, y)) := by
  refine ⟨?_, ?_, ?_⟩
  · intro cfg hC hnone
    unfold get_action_space
    simp only [hC, if_true]
    rcases hnone with hw | hh
    · rw [hw]
    · rw [hh]
      rcases cfg.screen_width with _ | w <;> rfl
  · intro cfg a binsX binsY hbins hnone
    unfold compute_raw_coords
    simp only [hbins]
    rcases hnone with hw | hh
    · simp only [hw]
    · simp only [hh]
      rcases cfg.screen_width with _ | w <;> rfl
  · intro cfg a x y hbins hc
    unfold compute_raw_coords
    rw [hbins, hc]

/-- **C4 witness.** The schema side of the amended claim, at a
configuration with `CLICK_COORDS` and no screen geometry. -/
theorem claim4_witness :
    get_action_space { action_types := [.CLICK_COORDS] } = .error .valueErrorScreen :=
  claim4_missing_geometry.1 { action_types := [.CLICK_COORDS] } rfl (Or.inl rfl)

/-- **C10.** A screen dimension that is `None` or zero is rejected alike:
the guards test Python truthiness, so whenever `screen_width` or
`screen_height` is falsy, `get_action_space` with a Coordinate kind
configured and `compute_raw_coords` with `coord_bins` set both raise the
missing-geometry `ValueError`. -/
theorem claim10_falsy_screen_treated_as_unset
    (cfg : ActionSpaceConfig)
    (hfalsy : pyFalsy cfg.screen_width = true ∨ pyFalsy cfg.screen_height = true) :
    (intersects COORDS_ACTIONS cfg.action_types = true →
      get_action_space cfg = .error .valueErrorScreen) ∧
    (∀ (a : ActionInst) (binsX binsY : Int),
      cfg.coord_bins = some (binsX, binsY) →
      compute_raw_coords cfg a = .error .valueErrorScreen) := by
  constructor
  · intro hC
    unfold get_action_space
    simp only [hC, if_true]
    rcases hw : cfg.screen_width with _ | w
    · rcases cfg.screen_height with _ | h <;> rfl
    · rcases hh : cfg.screen_height with _ | h
      · rfl
      · have hz : w = 0 ∨ h = 0 := by
          rcases hfalsy with hf | hf
          · rw [hw] at hf
            simp [pyFalsy] at hf
            exact Or.inl hf
          · rw [hh] at hf
            simp [pyFalsy] at hf
            exact Or.inr hf
        simp only [if_pos hz]
  · intro a binsX binsY hbins
    unfold compute_raw_coords
    rw [hbins]
    rcases hw : cfg.screen_width with _ | w
    · rcases cfg.screen_height with _ | h <;> rfl
    · rcases hh : cfg.screen_height with _ | h
      · rfl
      · have hz : w = 0 ∨ h = 0 := by
          rcases hfalsy with hf | hf
          · rw [hw] at hf
            simp [pyFalsy] at hf
            exact Or.inl hf
          · rw [hh] at hf
            simp [pyFalsy] at hf
            exact Or.inr hf
        simp only [if_pos hz]

/-- **C10 witness.** `screen_width = 0` (set but falsy) with a Coordinate
kind and bins: both operations raise the missing-geometry error. -/
theorem claim10_witness :
    get_action_space
      { action_types := [.CLICK_COORDS], screen_width := some 0,
        screen_height := some 5, coord_bins := some (4, 2) } =
      .error .valueErrorScreen ∧
    compute_raw_coords
      { action_types := [.CLICK_COORDS], screen_width := some 0,
        screen_height := some 5, coord_bins := some (4, 2) }
      { action_type := 0, coords := some (1, 1) } = .error .valueErrorScreen := by
  have h := claim10_falsy_screen_treated_as_unset
    { action_types := [.CLICK_COORDS], screen_width := some 0,
      screen_height := some 5, coord_bins := some (4, 2) } (Or.inl rfl)
  exact ⟨h.1 rfl, h.2 { action_type := 0, coords := some (1, 1) } 4 2 rfl⟩

end Miniwob

namespace Miniwob

/-- `compute_raw_coords` never reports an index error: its failure modes
are the missing-geometry `ValueError`, a missing `coords` key, and a zero
bin count. -/
lemma compute_raw_coords_ne_indexError (cfg : ActionSpaceConfig) (a : ActionInst) :
    compute_raw_coords cfg a ≠ .error PyError.indexError := by
  unfold compute_raw_coords
  repeat' split
  all_goals simp

/-- Dispatch case analysis: once the `action_type` index has resolved to a
kind `k`, `execute_action` either is the no-op (exactly for `k = NONE`),
or raises a non-index error with no driver call, or performs exactly one
driver call. -/
lemma execute_action_resolved (a : ActionInst) (cfg : ActionSpaceConfig) (k : ActionTypes)
    (h : pyIndex cfg.action_types a.action_type = .ok k) :
    (k = .NONE ∧ execute_action a cfg = ([], none)) ∨
    (k ≠ .NONE ∧
      ((∃ e, e ≠ PyError.indexError ∧ execute_action a cfg = ([], some e)) ∨
       (∃ c, execute_action a cfg = ([c], none)))) := by
  cases k with
  | NONE =>
    exact Or.inl ⟨rfl, by simp [execute_action, h, ACTION_TYPE_TO_SELENIUM_ACTION_FN]⟩
  | MOVE_COORDS =>
    refine Or.inr ⟨by decide, ?_⟩
    rcases hcr : compute_raw_coords cfg a with e | ⟨l, t⟩
    · refine Or.inl ⟨e, ?_, ?_⟩
      · intro he
        subst he
        exact compute_raw_coords_ne_indexError cfg a hcr
      · simp [execute_action, h, ACTION_TYPE_TO_SELENIUM_ACTION_FN, COORDS_ACTIONS, hcr]
    · exact Or.inr ⟨.moveCoords l t,
        by simp [execute_action, h, ACTION_TYPE_TO_SELENIUM_ACTION_FN, COORDS_ACTIONS, hcr,
                 applyCoordsFn]⟩
  | CLICK_COORDS =>
    refine Or.inr ⟨by decide, ?_⟩
    rcases hcr : compute_raw_coords cfg a with e | ⟨l, t⟩
    · refine Or.inl ⟨e, ?_, ?_⟩
      · intro he
        subst he
        exact compute_raw_coords_ne_indexError cfg a hcr
      · simp [execute_action, h, ACTION_TYPE_TO_SELENIUM_ACTION_FN, COORDS_ACTIONS, hcr]
    · exact Or.inr ⟨.clickCoords l t,
        by simp [execute_action, h, ACTION_TYPE_TO_SELENIUM_ACTION_FN, COORDS_ACTIONS, hcr,
                 applyCoordsFn]⟩
  | DBLCLICK_COORDS =>
    refine Or.inr ⟨by decide, ?_⟩
    rcases hcr : compute_raw_coords cfg a with e | ⟨l, t⟩
    · refine Or.inl ⟨e, ?_, ?_⟩
      · intro he
        subst he
        exact compute_raw_coords_ne_indexError cfg a hcr
      · simp [execute_action, h, ACTION_TYPE_TO_SELENIUM_ACTION_FN, COORDS_ACTIONS, hcr]
    · exact Or.inr ⟨.dblclickCoords l t,
        by simp [execute_action, h, ACTION_TYPE_TO_SELENIUM_ACTION_FN, COORDS_ACTIONS, hcr,
                 applyCoordsFn]⟩
  | MOUSEDOWN_COORDS =>
    refine Or.inr ⟨by decide, ?_⟩
    rcases hcr : compute_raw_coords cfg a with e | ⟨l, t⟩
    · refine Or.inl ⟨e, ?_, ?_⟩
      · intro he
        subst he
        exact compute_raw_coords_ne_indexError cfg a hcr
      · simp [execute_action, h, ACTION_TYPE_TO_SELENIUM_ACTION_FN, COORDS_ACTIONS, hcr]
    · exact Or.inr ⟨.mousedownCoords l t,
        by simp [execute_action, h, ACTION_TYPE_TO_SELENIUM_ACTION_FN, COORDS_ACTIONS, hcr,
                 applyCoordsFn]⟩
  | MOUSEUP_COORDS =>
    refine Or.inr ⟨by decide, ?_⟩
    rcases hcr : compute_raw_coords cfg a with e | ⟨l, t⟩
    · refine Or.inl ⟨e, ?_, ?_⟩
      · intro he
        subst he
        exact compute_raw_coords_ne_indexError cfg a hcr
      · simp [execute_action, h, ACTION_TYPE_TO_SELENIUM_ACTION_FN, COORDS_ACTIONS, hcr]
    · exact Or.inr ⟨.mouseupCoords l t,
        by simp [execute_action, h, ACTION_TYPE_TO_SELENIUM_ACTION_FN, COORDS_ACTIONS, hcr,
                 applyCoordsFn]⟩
  | CLICK_ELEMENT =>
    refine Or.inr ⟨by decide, ?_⟩
    rcases href : a.ref with _ | r
    · exact Or.inl ⟨.keyErrorStr "ref", by decide,
        by simp [execute_action, h, ACTION_TYPE_TO_SELENIUM_ACTION_FN, COORDS_ACTIONS, href]⟩
    · exact Or.inr ⟨.clickElement (pyTrunc r),
        by simp [execute_action, h, ACTION_TYPE_TO_SELENIUM_ACTION_FN, COORDS_ACTIONS, href]⟩
  | SCROLL_UP =>
    exact Or.inr ⟨by decide, Or.inl ⟨.keyError .SCROLL_UP, by decide,
      by simp [execute_action, h, ACTION_TYPE_TO_SELENIUM_ACTION_FN]⟩⟩
  | SCROLL_DOWN =>
    exact Or.inr ⟨by decide, Or.inl ⟨.keyError .SCROLL_DOWN, by decide,
      by simp [execute_action, h, ACTION_TYPE_TO_SELENIUM_ACTION_FN]⟩⟩
  | PRESS_KEY =>
    exact Or.inr ⟨by decide, Or.inl ⟨.keyError .PRESS_KEY, by decide,
      by simp [execute_action, h, ACTION_TYPE_TO_SELENIUM_ACTION_FN]⟩⟩
  | TYPE_TEXT =>
    refine Or.inr ⟨by decide, ?_⟩
    rcases htext : a.text with _ | t
    · exact Or.inl ⟨.keyErrorStr "text", by decide,
        by simp [execute_action, h, ACTION_TYPE_TO_SELENIUM_ACTION_FN, COORDS_ACTIONS, htext]⟩
    · exact Or.inr ⟨.typeText t,
        by simp [execute_action, h, ACTION_TYPE_TO_SELENIUM_ACTION_FN, COORDS_ACTIONS, htext]⟩
  | TYPE_FIELD =>
    exact Or.inr ⟨by decide, Or.inl ⟨.keyError .TYPE_FIELD, by decide,
      by simp [execute_action, h, ACTION_TYPE_TO_SELENIUM_ACTION_FN]⟩⟩
  | FOCUS_ELEMENT_AND_TYPE_TEXT =>
    refine Or.inr ⟨by decide, ?_⟩
    rcases href : a.ref with _ | r
    · exact Or.inl ⟨.keyErrorStr "ref", by decide,
        by simp [execute_action, h, ACTION_TYPE_TO_SELENIUM_ACTION_FN, COORDS_ACTIONS, href]⟩
    · rcases htext : a.text with _ | t
      · exact Or.inl ⟨.keyErrorStr "text", by decide,
          by simp [execute_action, h, ACTION_TYPE_TO_SELENIUM_ACTION_FN, COORDS_ACTIONS, href,
                   htext]⟩
      · exact Or.inr ⟨.focusElementAndTypeText (pyTrunc r) t,
          by simp [execute_action, h, ACTION_TYPE_TO_SELENIUM_ACTION_FN, COORDS_ACTIONS, href,
                   htext]⟩
  | FOCUS_ELEMENT_AND_TYPE_FIELD =>
    exact Or.inr ⟨by decide, Or.inl ⟨.keyError .FOCUS_ELEMENT_AND_TYPE_FIELD, by decide,
      by simp [execute_action, h, ACTION_TYPE_TO_SELENIUM_ACTION_FN]⟩⟩

end Miniwob

namespace Miniwob

/-- **C9.** A negative `action_type` index `t` with `-n ≤ t ≤ -1` does not
raise an index error: kind resolution follows Python negative indexing and
yields the element at position `n + t` of `action_types`, even though the
schema's `Discrete(n)` domain is `0..n-1`. -/
theorem claim9_negative_index_resolves
    (a : ActionInst) (cfg : ActionSpaceConfig)
    (h1 : -(cfg.action_types.length : Int) ≤ a.action_type)
    (h2 : a.action_type < 0) :
    pyIndex cfg.action_types a.action_type =
      .ok (cfg.action_types.get
        ⟨(a.action_type + (cfg.action_types.length : Int)).toNat, by omega⟩) ∧
    (execute_action a cfg).2 ≠ some PyError.indexError := by
  have hnn : ¬ a.action_type + (cfg.action_types.length : Int) < 0 := by omega
  have hlt : (a.action_type + (cfg.action_types.length : Int)).toNat <
      cfg.action_types.length := by omega
  have hres : pyIndex cfg.action_types a.action_type =
      .ok (cfg.action_types.get
        ⟨(a.action_type + (cfg.action_types.length : Int)).toNat, hlt⟩) := by
    unfold pyIndex
    simp only [if_pos h2, if_neg hnn]
    rw [List.get?_eq_get hlt]
  refine ⟨hres, ?_⟩
  rcases execute_action_resolved a cfg _ hres with ⟨_, hx⟩ | ⟨_, hrest⟩
  · rw [hx]
    simp
  · rcases hrest with ⟨e, hne, hx⟩ | ⟨c, hx⟩
    · rw [hx]
      simpa using hne
    · rw [hx]
      simp

/-- **C9 witness.** Index `-1` into `[NONE, CLICK_ELEMENT]` resolves to
`CLICK_ELEMENT` (position `2 + (-1) = 1`) without an index error. -/
theorem claim9_witness :
    pyIndex ([ActionTypes.NONE, ActionTypes.CLICK_ELEMENT]) (-1) =
      .ok ActionTypes.CLICK_ELEMENT ∧
    (execute_action { action_type := -1, ref := some 5 }
      { action_types := [.NONE, .CLICK_ELEMENT] }).2 ≠ some PyError.indexError := by
  have h := claim9_negative_index_resolves
    { action_type := -1, ref := some 5 }
    { action_types := [.NONE, .CLICK_ELEMENT] } (by norm_num) (by norm_num)
  exact ⟨h.1, h.2⟩

/-- **C7.** Every invocation of `execute_action` performs at most one
driver call: zero whenever it raises, zero exactly when the resolved kind
is the no-op, one for every successfully dispatched non-no-op kind; in
particular `FOCUS_ELEMENT_AND_TYPE_TEXT` dispatches one combined call with
`(ref, text) = (5, "hi")`. -/
theorem claim7_at_most_one_driver_call :
    (∀ (a : ActionInst) (cfg : ActionSpaceConfig),
      (execute_action a cfg).1.length ≤ 1) ∧
    (∀ (a : ActionInst) (cfg : ActionSpaceConfig) (e : PyError),
      (execute_action a cfg).2 = some e → (execute_action a cfg).1 = []) ∧
    (∀ (a : ActionInst) (cfg : ActionSpaceConfig),
      pyIndex cfg.action_types a.action_type = .ok .NONE →
      execute_action a cfg = ([], none)) ∧
    (∀ (a : ActionInst) (cfg : ActionSpaceConfig) (k : ActionTypes),
      pyIndex cfg.action_types a.action_type = .ok k → k ≠ .NONE →
      (execute_action a cfg).2 = none → (execute_action a cfg).1.length = 1) ∧
    execute_action { action_type := 1, ref := some 5, text := some "hi" }
      { action_types := [.NONE, .FOCUS_ELEMENT_AND_TYPE_TEXT] } =
      ([.focusElementAndTypeText 5 "hi"], none) := by
  refine ⟨?_, ?_, ?_, ?_, ?_⟩
  · intro a cfg
    rcases hp : pyIndex cfg.action_types a.action_type with e | k
    · have hx : execute_action a cfg = ([], some e) := by
        unfold execute_action
        rw [hp]
      rw [hx]
      simp
    · rcases execute_action_resolved a cfg k hp with ⟨_, hx⟩ | ⟨_, ⟨e, _, hx⟩ | ⟨c, hx⟩⟩ <;>
        rw [hx] <;> simp
  · intro a cfg e he
    rcases hp : pyIndex cfg.action_types a.action_type with e' | k
    · unfold execute_action
      rw [hp]
    · rcases execute_action_resolved a cfg k hp with ⟨_, hx⟩ | ⟨_, ⟨e', _, hx⟩ | ⟨c, hx⟩⟩ <;>
        rw [hx]
      exact absurd (hx ▸ he) (by simp)
  · intro a cfg hp
    rcases execute_action_resolved a cfg _ hp with ⟨_, hx⟩ | ⟨hne, _⟩
    · exact hx
    · exact absurd rfl hne
  · intro a cfg k hp hne hok
    rcases execute_action_resolved a cfg k hp with ⟨hk, _⟩ | ⟨_, ⟨e, _, hx⟩ | ⟨c, hx⟩⟩
    · exact absurd hk hne
    · rw [hx] at hok
      simp at hok
    · rw [hx]
      rfl
  · rfl

/-- **C7 witness.** The no-op characterization applied at index `0` of
`[NONE]`. -/
theorem claim7_witness :
    execute_action { action_type := 0 } { action_types := [.NONE] } = ([], none) :=
  claim7_at_most_one_driver_call.2.2.1 { action_type := 0 } { action_types := [.NONE] } rfl

end Miniwob

namespace Miniwob

set_option maxHeartbeats 1000000

/-- **C3.** The schema exists whenever screen geometry is set when needed,
and its field set is a pure function of group membership: `coords` iff a
Coordinate kind is configured, `ref` iff an Element kind, `text` iff a
Text kind, `field` iff a Field kind, `key` iff `PRESS_KEY` is configured —
independent of the position of any kind within `action_types` — and it
always contains the `action_type` discrete selector over
`len(action_types)` values. -/
theorem claim3_schema_fields :
    (∀ cfg : ActionSpaceConfig,
      (intersects COORDS_ACTIONS cfg.action_types = true →
        pyFalsy cfg.screen_width = false ∧ pyFalsy cfg.screen_height = false) →
      ∃ sch, get_action_space cfg = .ok sch) ∧
    (∀ (cfg : ActionSpaceConfig) (sch : List (String × SpaceDesc)),
      get_action_space cfg = .ok sch →
      ("action_type", SpaceDesc.discrete cfg.action_types.length) ∈ sch ∧
      hasKey sch "coords" = intersects COORDS_ACTIONS cfg.action_types ∧
      hasKey sch "ref" = intersects ELEMENT_ACTIONS cfg.action_types ∧
      hasKey sch "text" = intersects TEXT_ACTIONS cfg.action_types ∧
      hasKey sch "field" = intersects FIELD_ACTIONS cfg.action_types ∧
      hasKey sch "key" = decide (ActionTypes.PRESS_KEY ∈ cfg.action_types)) := by
  constructor
  · intro cfg hgeo
    unfold get_action_space
    cases hC : intersects COORDS_ACTIONS cfg.action_types with
    | false =>
      simp only [hC]
      exact ⟨_, rfl⟩
    | true =>
      obtain ⟨hwf, hhf⟩ := hgeo hC
      rcases hw : cfg.screen_width with _ | w
      · rw [hw] at hwf
        simp [pyFalsy] at hwf
      · rcases hh : cfg.screen_height with _ | hgt
        · rw [hh] at hhf
          simp [pyFalsy] at hhf
        · have hz : ¬ (w = 0 ∨ hgt = 0) := by
            rw [hw] at hwf
            rw [hh] at hhf
            simp [pyFalsy] at hwf hhf
            tauto
          simp only [hC, if_neg hz]
          rcases cfg.coord_bins with _ | ⟨b1, b2⟩ <;> exact ⟨_, rfl⟩
  · intro cfg sch h
    unfold get_action_space at h
    cases hC : intersects COORDS_ACTIONS cfg.action_types with
    | false =>
      simp only [hC] at h
      cases hE : intersects ELEMENT_ACTIONS cfg.action_types <;>
        by_cases hK : ActionTypes.PRESS_KEY ∈ cfg.action_types <;>
        cases hT : intersects TEXT_ACTIONS cfg.action_types <;>
        cases hF : intersects FIELD_ACTIONS cfg.action_types <;>
        simp [hE, hK, hT, hF] at h <;>
        subst h <;>
        simp [hasKey, hC, hE, hK, hT, hF]
    | true =>
      simp only [hC] at h
      rcases hw : cfg.screen_width with _ | w <;> rw [hw] at h
      · simp at h
      · rcases hh : cfg.screen_height with _ | hgt <;> rw [hh] at h
        · simp at h
        · by_cases hz : (w = 0 ∨ hgt = 0)
          · simp [hz] at h
          · simp only [if_neg hz] at h
            rcases hb : cfg.coord_bins with _ | ⟨b1, b2⟩ <;> rw [hb] at h <;>
              cases hE : intersects ELEMENT_ACTIONS cfg.action_types <;>
              by_cases hK : ActionTypes.PRESS_KEY ∈ cfg.action_types <;>
              cases hT : intersects TEXT_ACTIONS cfg.action_types <;>
              cases hF : intersects FIELD_ACTIONS cfg.action_types <;>
              simp [hE, hK, hT, hF] at h <;>
              subst h <;>
              simp [hasKey, hC, hE, hK, hT, hF]

/-- **C3 witness.** A configuration with Element and Text kinds but no
Coordinate, Field, or key kinds: the schema has exactly `action_type`,
`ref`, `text`. -/
theorem claim3_witness :
    ("action_type", SpaceDesc.discrete 3) ∈
      ([("action_type", SpaceDesc.discrete 3), ("ref", SpaceDesc.discrete MAX_REF),
        ("text", SpaceDesc.textSpace TYPING_MAX_LENGTH ASCII_CHARSET)] :
        List (String × SpaceDesc)) ∧
    hasKey [("action_type", SpaceDesc.discrete 3), ("ref", SpaceDesc.discrete MAX_REF),
        ("text", SpaceDesc.textSpace TYPING_MAX_LENGTH ASCII_CHARSET)] "coords" =
      intersects COORDS_ACTIONS [ActionTypes.NONE, ActionTypes.CLICK_ELEMENT,
        ActionTypes.TYPE_TEXT] ∧
    hasKey [("action_type", SpaceDesc.discrete 3), ("ref", SpaceDesc.discrete MAX_REF),
        ("text", SpaceDesc.textSpace TYPING_MAX_LENGTH ASCII_CHARSET)] "ref" =
      intersects ELEMENT_ACTIONS [ActionTypes.NONE, ActionTypes.CLICK_ELEMENT,
        ActionTypes.TYPE_TEXT] ∧
    hasKey [("action_type", SpaceDesc.discrete 3), ("ref", SpaceDesc.discrete MAX_REF),
        ("text", SpaceDesc.textSpace TYPING_MAX_LENGTH ASCII_CHARSET)] "text" =
      intersects TEXT_ACTIONS [ActionTypes.NONE, ActionTypes.CLICK_ELEMENT,
        ActionTypes.TYPE_TEXT] ∧
    hasKey [("action_type", SpaceDesc.discrete 3), ("ref", SpaceDesc.discrete MAX_REF),
        ("text", SpaceDesc.textSpace TYPING_MAX_LENGTH ASCII_CHARSET)] "field" =
      intersects FIELD_ACTIONS [ActionTypes.NONE, ActionTypes.CLICK_ELEMENT,
        ActionTypes.TYPE_TEXT] ∧
    hasKey [("action_type", SpaceDesc.discrete 3), ("ref", SpaceDesc.discrete MAX_REF),
        ("text", SpaceDesc.textSpace TYPING_MAX_LENGTH ASCII_CHARSET)] "key" =
      decide (ActionTypes.PRESS_KEY ∈ [ActionTypes.NONE, ActionTypes.CLICK_ELEMENT,
        ActionTypes.TYPE_TEXT]) :=
  claim3_schema_fields.2
    { action_types := [.NONE, .CLICK_ELEMENT, .TYPE_TEXT] }
    [("action_type", SpaceDesc.discrete 3), ("ref", SpaceDesc.discrete MAX_REF),
     ("text", SpaceDesc.textSpace TYPING_MAX_LENGTH ASCII_CHARSET)] rfl

end Miniwob
